import Mathlib

/-!
Shallow embedding of the PAYMENT-SHIELD transaction risk-scoring engine
(`src/fraud_detector.py` and `src/transaction_analyzer.py`).

Modelling conventions:
* Monetary amounts and risk scores are rationals (`ℚ`); the Python code uses
  IEEE doubles.  Every rule condition is an exact comparison, so the rational
  model is the intended real-number semantics of the code.
* Timestamps are seconds since the Unix epoch (`Int`).  `hour`, day-of-week
  (Monday = 0, as in both pandas `dt.dayofweek` and `datetime.weekday`),
  calendar date, floored hour buckets and month/day are derived from the
  timestamp exactly as pandas derives them for a timezone-naive timestamp.
* Pandas `Series.std()` is the sample standard deviation (ddof = 1).  A z-score
  comparison `abs((a - mean)/std) > k` is embedded as
  `1 < n ∧ 0 < sampleVar ∧ k^2 * sampleVar < (a - mean)^2`, which is equivalent
  whenever `std > 0`, and `False` exactly when the float code yields `False`:
  for `n ≤ 1` the std is NaN (all NaN comparisons are `False`), and for
  `sampleVar = 0` every population member equals the mean, so the quotient is
  `0/0 = NaN`, again `False`.
* `str.contains(keyword)` on the plain-text keywords used by the code is
  substring containment; the empty pattern matches every string.
* Fraud reasons are kept as the ordered list of appended labels (the Python
  code concatenates the same labels into one comma-separated string and strips
  the trailing separator).  Labels that interpolate a formatted number keep
  only their fixed text.
* `df.sort_values('timestamp')` is modelled as a stable insertion sort on the
  index-tagged transaction list (tie order between equal timestamps is not
  specified by pandas' default quicksort; no claim depends on ties).
-/

/-- Lowercase a string (Python `str.lower` on ASCII rule keywords). -/
def lowerStr (s : String) : String := String.mk (s.toList.map Char.toLower)

/-- `p` is a prefix of `l`, as a boolean on character lists. -/
def isPrefixB : List Char → List Char → Bool
  | [], _ => true
  | _ :: _, [] => false
  | a :: as, b :: bs => a == b && isPrefixB as bs

/-- `p` occurs as a contiguous substring of `l`. -/
def isInfixB (p : List Char) : List Char → Bool
  | [] => p.isEmpty
  | c :: rest => isPrefixB p (c :: rest) || isInfixB p rest

/-- Python `pat in s` / pandas `s.str.contains(pat)` for plain-text patterns. -/
def containsStr (s pat : String) : Bool := isInfixB pat.toList s.toList

/-- Mean of a list of rationals (pandas `Series.mean`; only used under
non-emptiness guards, mirroring NaN propagation of the float code). -/
def meanQ (l : List ℚ) : ℚ := l.sum / l.length

/-- Sample variance with ddof = 1 (square of pandas `Series.std`); only
meaningful under a `1 < length` guard. -/
def sampleVarQ (l : List ℚ) : ℚ :=
  (l.map (fun a => (a - meanQ l) ^ 2)).sum / ((l.length : ℚ) - 1)

/-- Guard `std > 0` of the float code: defined sample std that is positive. -/
def stdPosB (l : List ℚ) : Bool := decide (1 < l.length) && decide (0 < sampleVarQ l)

/-- `abs((a - mean)/std) > k` of the float code (see header for why the
squared form with the `stdPosB` guard is exactly equivalent). -/
def zGtB (l : List ℚ) (a k : ℚ) : Bool :=
  stdPosB l && decide (k ^ 2 * sampleVarQ l < (a - meanQ l) ^ 2)

/-- `a % d == 0` of Python float arithmetic: `a / d` is an integer. -/
def isMultB (d a : ℚ) : Bool := (a / d).den == 1

/-- Maximum of a list of timestamps (pandas `Series.max`; only used on
non-empty lists). -/
def maxTsI : List Int → Int
  | [] => 0
  | x :: xs => xs.foldl max x

/-- Hour of day of an epoch-seconds timestamp (`Timestamp.hour`). -/
def hourOf (ts : Int) : Int := ts / 3600 % 24

/-- Day of week, Monday = 0 (`dt.dayofweek` / `datetime.weekday`);
1970-01-01 was a Thursday (= 3). -/
def dowOf (ts : Int) : Int := (ts / 86400 % 7 + 3) % 7

/-- Calendar date as days since the epoch (`dt.date` grouping key). -/
def dateOf (ts : Int) : Int := ts / 86400

/-- Hour bucket: timestamp floored to the hour (`dt.floor('H')`). -/
def hourBucketOf (ts : Int) : Int := ts / 3600

/-- (month, day) of a days-since-epoch count, by the standard civil-from-days
algorithm (`Timestamp.month` / `.day`). -/
def civilMD (z : Int) : Nat × Nat :=
  let z' := z + 719468
  let era : Int := z' / 146097
  let doe : Nat := (z' - era * 146097).toNat
  let yoe : Nat := (doe - doe / 1460 + doe / 36524 - doe / 146096) / 365
  let doy : Nat := doe - (365 * yoe + yoe / 4 - yoe / 100)
  let mp : Nat := (5 * doy + 2) / 153
  let d : Nat := doy - (153 * mp + 2) / 5 + 1
  let m : Nat := if mp < 10 then mp + 3 else mp - 9
  (m, d)

/-- Month (1..12) of an epoch-seconds timestamp. -/
def monthOf (ts : Int) : Nat := (civilMD (dateOf ts)).1

/-- Day of month (1..31) of an epoch-seconds timestamp. -/
def dayOf (ts : Int) : Nat := (civilMD (dateOf ts)).2

/-- Stable ascending insertion for the timestamp sort. -/
def insertQ (a : ℚ) : List ℚ → List ℚ
  | [] => [a]
  | b :: rest => if a ≤ b then a :: b :: rest else b :: insertQ a rest

/-- Ascending sort of amounts (`np.sort` inside pandas `quantile`). -/
def sortQ : List ℚ → List ℚ
  | [] => []
  | a :: rest => insertQ a (sortQ rest)

/-- Pandas `Series.quantile(q)` with the default linear interpolation; only
used on non-empty lists. -/
def quantileQ (l : List ℚ) (q : ℚ) : ℚ :=
  let s := sortQ l
  let h : ℚ := q * ((l.length : ℚ) - 1)
  let lo : Nat := h.floor.toNat
  let frac : ℚ := h - (lo : ℚ)
  let xlo := s.getD lo 0
  let xhi := s.getD (lo + 1) xlo
  xlo + frac * (xhi - xlo)

/-- A transaction record (fields used by the scoring rules; `transaction_id`
and `card_type` never influence any rule and are omitted). -/
structure Transaction where
  amount : ℚ
  merchant : String
  location : String
  timestamp : Int
  user_id : String
  merchant_category : String
deriving DecidableEq, Repr

/-- The mutable settings dictionary of `FraudDetector.__init__`.  The code
only ever reads the `.hour` field of the two `time` values, so off-hours
bounds are stored as their hour. -/
structure Settings where
  high_risk_threshold : ℚ
  medium_risk_threshold : ℚ
  unusual_amount_threshold : ℚ
  micro_transaction_threshold : ℚ
  off_hours_start : Nat
  off_hours_end : Nat
  max_transactions_per_hour : Nat
  max_amount_per_day : ℚ
deriving DecidableEq, Repr

/-- The defaults installed by `FraudDetector.__init__`. -/
def defaultSettings : Settings where
  high_risk_threshold := 0.7
  medium_risk_threshold := 0.4
  unusual_amount_threshold := 10000
  micro_transaction_threshold := 1
  off_hours_start := 22
  off_hours_end := 6
  max_transactions_per_hour := 10
  max_amount_per_day := 50000

/-- A partial settings update: the recognized option keys (spec §6), each
optionally present, as passed to `FraudDetector.update_settings`. -/
structure SettingsUpdate where
  high_risk_threshold : Option ℚ := none
  medium_risk_threshold : Option ℚ := none
  unusual_amount_threshold : Option ℚ := none
  micro_transaction_threshold : Option ℚ := none
  off_hours_start : Option Nat := none
  off_hours_end : Option Nat := none
  max_transactions_per_hour : Option Nat := none
  max_amount_per_day : Option ℚ := none
deriving DecidableEq, Repr

/-- `FraudDetector.update_settings`: a plain `dict.update` — every key present
in the update overwrites the current value, absent keys are untouched.  The
code performs no validation of any kind. -/
def update_settings (s : Settings) (u : SettingsUpdate) : Settings where
  high_risk_threshold := u.high_risk_threshold.getD s.high_risk_threshold
  medium_risk_threshold := u.medium_risk_threshold.getD s.medium_risk_threshold
  unusual_amount_threshold := u.unusual_amount_threshold.getD s.unusual_amount_threshold
  micro_transaction_threshold := u.micro_transaction_threshold.getD s.micro_transaction_threshold
  off_hours_start := u.off_hours_start.getD s.off_hours_start
  off_hours_end := u.off_hours_end.getD s.off_hours_end
  max_transactions_per_hour := u.max_transactions_per_hour.getD s.max_transactions_per_hour
  max_amount_per_day := u.max_amount_per_day.getD s.max_amount_per_day

/-- Well-formedness of a settings update in the spec's words (§7): risk
thresholds inside [0,1], off-hours bounds valid times of day. -/
def validUpdateB (u : SettingsUpdate) : Bool :=
  u.high_risk_threshold.all (fun x => decide (0 ≤ x) && decide (x ≤ 1)) &&
  u.medium_risk_threshold.all (fun x => decide (0 ≤ x) && decide (x ≤ 1)) &&
  u.off_hours_start.all (fun h => decide (h < 24)) &&
  u.off_hours_end.all (fun h => decide (h < 24))

/-- One fired rule: contribution added to `risk_score` paired with the label
appended to `fraud_reasons`. -/
def flag (c : Bool) (w : ℚ) (label : String) : List (ℚ × String) :=
  if c then [(w, label)] else []

/-- An `if`/`elif` pair of rules (second fires only when the first does not). -/
def flag2 (c1 : Bool) (w1 : ℚ) (l1 : String) (c2 : Bool) (w2 : ℚ) (l2 : String) :
    List (ℚ × String) :=
  if c1 then [(w1, l1)] else if c2 then [(w2, l2)] else []

/-- A keyword loop: one independent contribution per matching keyword, in the
keyword list's order. -/
def flagEach (ks : List String) (c : String → Bool) (w : ℚ) (lab : String → String) :
    List (ℚ × String) :=
  (ks.filter c).map (fun k => (w, lab k))

/-! ## Batch mode: `FraudDetector.detect_fraud` -/

/-- Stable insertion of an index-tagged transaction into a
timestamp-ascending list. -/
def insertTs (p : Nat × Transaction) :
    List (Nat × Transaction) → List (Nat × Transaction)
  | [] => [p]
  | q :: rest =>
    if p.2.timestamp ≤ q.2.timestamp then p :: q :: rest else q :: insertTs p rest

/-- Stable ascending sort by timestamp (`df.sort_values('timestamp')`). -/
def sortTs : List (Nat × Transaction) → List (Nat × Transaction)
  | [] => []
  | p :: rest => insertTs p (sortTs rest)

/-- The rows of user `u`, tagged with their batch position, in timestamp
order (`df_sorted[df_sorted['user_id'] == user_id]`). -/
def userSorted (txs : List Transaction) (u : String) : List (Nat × Transaction) :=
  sortTs (txs.enum.filter (fun p => p.2.user_id == u))

/-- The transactions of user `u` (unsorted; order-independent aggregates). -/
def userTxs (txs : List Transaction) (u : String) : List Transaction :=
  txs.filter (fun x => x.user_id == u)

/-- Batch positions flagged by `time_diff < timedelta(minutes=1)`: the later
transaction of each consecutive same-user pair less than 60 s apart.  The
first row's `diff()` is NaT, which compares `False`. -/
def rapidIdx (txs : List Transaction) (u : String) : List Nat :=
  let l := userSorted txs u
  (l.zip l.tail).filterMap
    (fun q => if q.2.2.timestamp - q.1.2.timestamp < 60 then some q.2.1 else none)

/-- "Rapid consecutive transactions" fires for batch position `i` holding
transaction `t` (the whole per-user velocity block runs only when the user
has more than one row). -/
def rapidB (txs : List Transaction) (i : Nat) (t : Transaction) : Bool :=
  decide (1 < (userTxs txs t.user_id).length) && decide (i ∈ rapidIdx txs t.user_id)

/-- "High hourly velocity": the user's row count in `t`'s floored-hour bucket
exceeds `max_transactions_per_hour`. -/
def hourlyB (s : Settings) (txs : List Transaction) (t : Transaction) : Bool :=
  let utx := userTxs txs t.user_id
  decide (1 < utx.length) &&
  decide (s.max_transactions_per_hour <
    ((utx.filter (fun x => hourBucketOf x.timestamp == hourBucketOf t.timestamp)).length))

/-- "High daily amount": the user's total amount on `t`'s calendar date
exceeds `max_amount_per_day`. -/
def dailyB (s : Settings) (txs : List Transaction) (t : Transaction) : Bool :=
  let utx := userTxs txs t.user_id
  decide (1 < utx.length) &&
  decide (s.max_amount_per_day <
    ((utx.filter (fun x => dateOf x.timestamp == dateOf t.timestamp)).map
      Transaction.amount).sum)

/-- Batch positions flagged by "Rapid location change": location differs from
the user's previous row and the gap is under one hour.  The first row's
`shift(1)` comparison is `True` but its NaT `time_diff` comparison is
`False`, so the first row is never flagged. -/
def locChangeIdx (txs : List Transaction) (u : String) : List Nat :=
  let l := userSorted txs u
  (l.zip l.tail).filterMap
    (fun q =>
      if q.2.2.location ≠ q.1.2.location ∧ q.2.2.timestamp - q.1.2.timestamp < 3600
      then some q.2.1 else none)

/-- "Rapid location change" fires for batch position `i` holding `t`. -/
def locChangeB (txs : List Transaction) (i : Nat) (t : Transaction) : Bool :=
  decide (1 < (userTxs txs t.user_id).length) &&
  decide (i ∈ locChangeIdx txs t.user_id)

/-- `_check_amount_anomalies`: extreme z-score, large, micro, round. -/
def checkAmountPairs (s : Settings) (txs : List Transaction) (t : Transaction) :
    List (ℚ × String) :=
  flag (zGtB (txs.map Transaction.amount) t.amount 3) 0.3 "Extreme amount" ++
  flag (decide (s.unusual_amount_threshold < t.amount)) 0.2 "Large amount" ++
  flag (decide (t.amount < s.micro_transaction_threshold)) 0.1 "Micro transaction" ++
  flag (isMultB 100 t.amount && decide ((100 : ℚ) < t.amount)) 0.05 "Round amount"

/-- The off-hours window test of `_check_time_patterns` (wrap-aware). -/
def offHoursB (s : Settings) (h : Int) : Bool :=
  if s.off_hours_end < s.off_hours_start then
    decide ((s.off_hours_start : Int) ≤ h) || decide (h ≤ (s.off_hours_end : Int))
  else
    decide ((s.off_hours_start : Int) ≤ h) && decide (h ≤ (s.off_hours_end : Int))

/-- `_check_time_patterns`: off-hours and weekend. -/
def checkTimePairs (s : Settings) (t : Transaction) : List (ℚ × String) :=
  flag (offHoursB s (hourOf t.timestamp)) 0.15 "Off-hours transaction" ++
  flag (decide (dowOf t.timestamp = 5) || decide (dowOf t.timestamp = 6)) 0.05
    "Weekend transaction"

/-- `_check_velocity_patterns` contributions for position `i` holding `t`. -/
def checkVelocityPairs (s : Settings) (txs : List Transaction) (i : Nat)
    (t : Transaction) : List (ℚ × String) :=
  flag (rapidB txs i t) 0.25 "Rapid consecutive transactions" ++
  flag (hourlyB s txs t) 0.2 "High hourly velocity" ++
  flag (dailyB s txs t) 0.15 "High daily amount"

/-- `_check_location_patterns` contributions for position `i` holding `t`. -/
def checkLocationPairs (txs : List Transaction) (i : Nat) (t : Transaction) :
    List (ℚ × String) :=
  flag (locChangeB txs i t) 0.3 "Rapid location change" ++
  flagEach ["unknown", "test", "temp", "null", ""]
    (fun k => containsStr (lowerStr t.location) k) 0.1 (fun _ => "High-risk location")

/-- `_check_merchant_patterns`: rare merchant, risky category keywords,
suspicious name keywords. -/
def checkMerchantPairs (txs : List Transaction) (t : Transaction) :
    List (ℚ × String) :=
  flag (decide ((txs.filter (fun x => x.merchant == t.merchant)).length = 1)) 0.1
    "New/rare merchant" ++
  flagEach ["gambling", "adult", "cryptocurrency", "cash_advance"]
    (fun k => containsStr (lowerStr t.merchant_category) k) 0.15
    (fun k => "High-risk category (" ++ k ++ ")") ++
  flagEach ["test", "temp", "fake", "dummy"]
    (fun k => containsStr (lowerStr t.merchant) k) 0.2
    (fun _ => "Suspicious merchant name")

/-- All batch contributions for position `i` holding `t`, in the order the
rule methods run in `detect_fraud`. -/
def allBatchPairs (s : Settings) (txs : List Transaction) (i : Nat)
    (t : Transaction) : List (ℚ × String) :=
  checkAmountPairs s txs t ++ checkTimePairs s t ++ checkVelocityPairs s txs i t ++
  checkLocationPairs txs i t ++ checkMerchantPairs txs t

/-- One row of the batch output. -/
structure ScoredTx where
  tx : Transaction
  risk_score : ℚ
  is_fraud : Bool
  fraud_reasons : List String
deriving DecidableEq, Repr

/-- `_calculate_final_score` applied to position `i` holding `t`: cap the
summed score at 1.0 and compare against `high_risk_threshold`. -/
def scoreAt (s : Settings) (txs : List Transaction) (i : Nat) (t : Transaction) :
    ScoredTx :=
  let raw := ((allBatchPairs s txs i t).map Prod.fst).sum
  { tx := t
    risk_score := min raw 1
    is_fraud := decide (s.high_risk_threshold ≤ min raw 1)
    fraud_reasons := (allBatchPairs s txs i t).map Prod.snd }

/-- `FraudDetector.detect_fraud`: order-preserving, one output row per input
row. -/
def detect_fraud (s : Settings) (txs : List Transaction) : List ScoredTx :=
  txs.enum.map (fun p => scoreAt s txs p.1 p.2)

/-! ## Single mode: `TransactionAnalyzer.analyze_single_transaction` -/

/-- Distinct calendar dates in a transaction list (`groupby(dt.date)` keys). -/
def distinctDates (l : List Transaction) : List Int :=
  (l.map (fun x => dateOf x.timestamp)).dedup

/-- The user's historical average daily spend: the mean of the per-date sums,
which equals total spend divided by the number of distinct dates. -/
def avgDailyQ (l : List Transaction) : ℚ :=
  (l.map Transaction.amount).sum / ((distinctDates l).length : ℚ)

/-- `_analyze_user_behavior` (contribution, factors). -/
def analyzeUserPairs (t : Transaction) (hist : List Transaction) :
    List (ℚ × String) :=
  let utx := userTxs hist t.user_id
  if utx.isEmpty then [(0.3, "New user - no transaction history")]
  else
    let amounts := utx.map Transaction.amount
    flag2 (zGtB amounts t.amount 3) 0.25 "Amount highly unusual for user"
      (zGtB amounts t.amount 2) 0.15 "Amount somewhat unusual for user" ++
    flag (decide (t.timestamp - maxTsI (utx.map Transaction.timestamp) < 300)) 0.2
      "Very recent transaction from same user" ++
    (let recent := utx.filter (fun x => t.timestamp - 86400 < x.timestamp)
     flag (decide (0 < recent.length) &&
           decide (3 * avgDailyQ utx <
             (recent.map Transaction.amount).sum + t.amount)) 0.2
       "Daily spending significantly above average")

/-- `_analyze_amount_patterns` (contribution, factors). -/
def analyzeAmountPairs (t : Transaction) (hist : List Transaction) :
    List (ℚ × String) :=
  let amounts := hist.map Transaction.amount
  let ne := decide (0 < hist.length)
  flag2 (ne && decide (quantileQ amounts (99 / 100) < t.amount)) 0.3
      "Amount in top 1% of all transactions"
    (ne && decide (quantileQ amounts (95 / 100) < t.amount)) 0.15
      "Amount in top 5% of all transactions" ++
  flag (decide (t.amount < 1)) 0.15 "Micro transaction amount" ++
  flag2 (decide ((100 : ℚ) ≤ t.amount) && isMultB 100 t.amount) 0.1 "Round amount"
    (decide ((10 : ℚ) ≤ t.amount) && isMultB 10 t.amount) 0.05
    "Round amount to nearest ten" ++
  flag (zGtB amounts t.amount 3) 0.2 "Statistical outlier"

/-- `_analyze_temporal_patterns` (contribution, factors). -/
def analyzeTemporalPairs (t : Transaction) (hist : List Transaction) :
    List (ℚ × String) :=
  let h := hourOf t.timestamp
  flag (decide (22 ≤ h) || decide (h ≤ 6)) 0.15 "Off-hours transaction" ++
  flag (decide (5 ≤ dowOf t.timestamp)) 0.05 "Weekend transaction" ++
  flag ((decide (monthOf t.timestamp = 1) && decide (dayOf t.timestamp = 1)) ||
        (decide (monthOf t.timestamp = 12) && decide (dayOf t.timestamp = 25))) 0.1
    "Holiday transaction" ++
  flag (decide (((hist.filter (fun x => hourOf x.timestamp == h)).length : ℚ) <
        (hist.length : ℚ) * (1 / 100))) 0.1 "Unusual hour for transactions"

/-- `_analyze_location_patterns` (contribution, factors). -/
def analyzeLocationPairs (t : Transaction) (hist : List Transaction) :
    List (ℚ × String) :=
  let utx := userTxs hist t.user_id
  let userLocs := utx.map Transaction.location
  let globalLocs := hist.map Transaction.location
  (if 0 < userLocs.length then
    flag2 (decide (t.location ∉ userLocs)) 0.2 "New location for this user"
      (decide ((userLocs.filter (fun x => x == t.location)).length = 1)) 0.1
      "Rarely used location for this user"
   else []) ++
  flag2 (decide (t.location ∉ globalLocs)) 0.15 "New location globally"
    (decide ((globalLocs.filter (fun x => x == t.location)).length < 5)) 0.1
    "Rarely used location globally" ++
  flag (["test", "temp", "fake", "unknown", "null", ""].any
      (fun k => containsStr (lowerStr t.location) (lowerStr k))) 0.25
    "Suspicious location name"

/-- `_analyze_merchant_patterns` (contribution, factors). -/
def analyzeMerchantPairs (t : Transaction) (hist : List Transaction) :
    List (ℚ × String) :=
  let utx := userTxs hist t.user_id
  let userMerch := utx.map Transaction.merchant
  let userCats := utx.map Transaction.merchant_category
  let globalMerch := hist.map Transaction.merchant
  (if 0 < userMerch.length then
    flag (decide (t.merchant ∉ userMerch)) 0.1 "New merchant for this user" ++
    flag (decide (t.merchant_category ∉ userCats)) 0.15
      "New merchant category for this user"
   else []) ++
  flag2 (decide (t.merchant ∉ globalMerch)) 0.15 "New merchant globally"
    (decide ((globalMerch.filter (fun x => x == t.merchant)).length < 5)) 0.1
    "Rarely used merchant" ++
  flag (["gambling", "adult", "cryptocurrency", "cash advance", "money transfer"].any
      (fun k => containsStr (lowerStr t.merchant_category) (lowerStr k))) 0.2
    "High-risk merchant category" ++
  flag (["test", "temp", "fake", "unknown", "null"].any
      (fun k => containsStr (lowerStr t.merchant) (lowerStr k))) 0.25
    "Suspicious merchant name"

/-- `_get_risk_level`. -/
def getRiskLevel (score : ℚ) : String :=
  if 0.7 ≤ score then "HIGH"
  else if 0.4 ≤ score then "MEDIUM"
  else if 0.2 ≤ score then "LOW"
  else "VERY LOW"

/-- The recommendation dictionary of `_get_recommendation`. -/
structure Recommendation where
  action : String
  confidence : String
  reasoning : String
  risk_level : String
  primary_concerns : List String
deriving DecidableEq, Repr

/-- `_get_recommendation`. -/
def getRecommendation (score : ℚ) (factors : List String) : Recommendation :=
  let t3 : String × String × String :=
    if 0.8 ≤ score then
      ("BLOCK", "HIGH", "Multiple high-risk indicators detected")
    else if 0.6 ≤ score then
      ("REVIEW", "MEDIUM", "Several risk factors present, manual review recommended")
    else if 0.3 ≤ score then
      ("MONITOR", "LOW", "Some risk factors present, continue monitoring")
    else
      ("APPROVE", "HIGH", "Low risk transaction")
  { action := t3.1
    confidence := t3.2.1
    reasoning := t3.2.2
    risk_level := getRiskLevel score
    primary_concerns := if factors.isEmpty then [] else factors.take 3 }

/-- The parts of the single-transaction analysis result that the rules
determine (the per-dimension `details` mappings are display-only and are not
modelled). -/
structure AnalysisResult where
  risk_score : ℚ
  risk_factors : List String
  recommendation : Recommendation
deriving DecidableEq, Repr

/-- All single-mode contributions in sub-analysis order
user → amount → temporal → location → merchant. -/
def allSinglePairs (t : Transaction) (hist : List Transaction) :
    List (ℚ × String) :=
  analyzeUserPairs t hist ++ analyzeAmountPairs t hist ++
  analyzeTemporalPairs t hist ++ analyzeLocationPairs t hist ++
  analyzeMerchantPairs t hist

/-- `TransactionAnalyzer.analyze_single_transaction`. -/
def analyze_single_transaction (t : Transaction) (hist : List Transaction) :
    AnalysisResult :=
  let raw := ((allSinglePairs t hist).map Prod.fst).sum
  let score := min raw 1
  let factors := (allSinglePairs t hist).map Prod.snd
  { risk_score := score
    risk_factors := factors
    recommendation := getRecommendation score factors }

/-! ## Spec-side definitions and concrete fixtures -/

/-- Modelled from the spec (C5 wording): the off-hours window is
`[start,24) ∪ [0,end]` when `start > end`, else `[start,end]`.  Compared with
the code's `offHoursB`. -/
def specOffWindow (hs he h : Nat) : Prop :=
  if he < hs then (hs ≤ h ∧ h < 24) ∨ h ≤ he else hs ≤ h ∧ h ≤ he

/-- The batch contributions with the extreme-amount z-score rule removed and
every other rule untouched (used to state that a zero-variance population
skips only that rule). -/
def batchPairsSansZ (s : Settings) (txs : List Transaction) (i : Nat)
    (t : Transaction) : List (ℚ × String) :=
  (flag (decide (s.unusual_amount_threshold < t.amount)) 0.2 "Large amount" ++
   flag (decide (t.amount < s.micro_transaction_threshold)) 0.1 "Micro transaction" ++
   flag (isMultB 100 t.amount && decide ((100 : ℚ) < t.amount)) 0.05 "Round amount") ++
  checkTimePairs s t ++ checkVelocityPairs s txs i t ++
  checkLocationPairs txs i t ++ checkMerchantPairs txs t

/-- Scenario A, first transaction: user "U1", 30 s before the second. -/
def scA0 : Transaction :=
  { amount := 50, merchant := "Shop", location := "NYC", timestamp := 0
    user_id := "U1", merchant_category := "retail" }

/-- Scenario A, second transaction: same user and amount, 30 s later. -/
def scA1 : Transaction := { scA0 with timestamp := 30 }

/-- A transaction at clock hour 23 (its own user). -/
def tHour23 : Transaction :=
  { amount := 500, merchant := "Shop", location := "NYC", timestamp := 82800
    user_id := "A", merchant_category := "retail" }

/-- A transaction at clock hour 2 (its own user). -/
def tHour2 : Transaction := { tHour23 with timestamp := 7200, user_id := "B" }

/-- A transaction at clock hour 12 (its own user). -/
def tHour12 : Transaction := { tHour23 with timestamp := 43200, user_id := "C" }

/-- A single-mode subject transaction for witnesses. -/
def tSingle : Transaction :=
  { amount := 75, merchant := "BookStore", location := "Paris"
    timestamp := 1000000, user_id := "U9", merchant_category := "books" }

/-- A historical transaction for user "U9", later than `tSingle`. -/
def tHistLate : Transaction :=
  { amount := 20, merchant := "Cafe", location := "Paris", timestamp := 2000000
    user_id := "U9", merchant_category := "food" }

/-- A malformed settings update: `high_risk_threshold` outside `[0,1]`. -/
def badUpdate : SettingsUpdate := { high_risk_threshold := some (3 / 2) }

/-! ## Helper lemmas -/

theorem mem_flag {p : ℚ × String} {c : Bool} {w : ℚ} {l : String} :
    p ∈ flag c w l ↔ c = true ∧ p = (w, l) := by
  unfold flag; split <;> simp_all

theorem mem_flag2 {p : ℚ × String} {c1 c2 : Bool} {w1 w2 : ℚ} {l1 l2 : String} :
    p ∈ flag2 c1 w1 l1 c2 w2 l2 ↔
      (c1 = true ∧ p = (w1, l1)) ∨ (c1 = false ∧ c2 = true ∧ p = (w2, l2)) := by
  unfold flag2; rcases c1 <;> rcases c2 <;> simp

theorem mem_flagEach {p : ℚ × String} {ks : List String} {c : String → Bool}
    {w : ℚ} {lab : String → String} :
    p ∈ flagEach ks c w lab ↔ ∃ k, (k ∈ ks ∧ c k = true) ∧ p = (w, lab k) := by
  unfold flagEach
  constructor
  · intro h
    rcases List.mem_map.1 h with ⟨k, hk, rfl⟩
    rcases List.mem_filter.1 hk with ⟨hks, hck⟩
    exact ⟨k, ⟨hks, hck⟩, rfl⟩
  · rintro ⟨k, ⟨hks, hck⟩, rfl⟩
    exact List.mem_map.2 ⟨k, List.mem_filter.2 ⟨hks, hck⟩, rfl⟩

theorem flag_fst_nonneg {c : Bool} {w : ℚ} {l : String} (hw : 0 ≤ w) :
    ∀ p ∈ flag c w l, 0 ≤ p.1 := by
  intro p hp
  rcases mem_flag.1 hp with ⟨-, rfl⟩
  exact hw

theorem flag2_fst_nonneg {c1 c2 : Bool} {w1 w2 : ℚ} {l1 l2 : String}
    (h1 : 0 ≤ w1) (h2 : 0 ≤ w2) :
    ∀ p ∈ flag2 c1 w1 l1 c2 w2 l2, 0 ≤ p.1 := by
  intro p hp
  rcases mem_flag2.1 hp with ⟨-, rfl⟩ | ⟨-, -, rfl⟩ <;> assumption

theorem flagEach_fst_nonneg {ks : List String} {c : String → Bool} {w : ℚ}
    {lab : String → String} (hw : 0 ≤ w) :
    ∀ p ∈ flagEach ks c w lab, 0 ≤ p.1 := by
  intro p hp
  rcases mem_flagEach.1 hp with ⟨k, -, rfl⟩
  exact hw

theorem fst_nonneg_append {l1 l2 : List (ℚ × String)}
    (h1 : ∀ p ∈ l1, 0 ≤ p.1) (h2 : ∀ p ∈ l2, 0 ≤ p.1) :
    ∀ p ∈ l1 ++ l2, 0 ≤ p.1 := by
  intro p hp
  rcases List.mem_append.1 hp with h | h
  · exact h1 p h
  · exact h2 p h

theorem fst_nonneg_ite {c : Prop} [Decidable c] {l1 l2 : List (ℚ × String)}
    (h1 : ∀ p ∈ l1, 0 ≤ p.1) (h2 : ∀ p ∈ l2, 0 ≤ p.1) :
    ∀ p ∈ (if c then l1 else l2), 0 ≤ p.1 := by
  split <;> assumption

theorem fst_nonneg_nil : ∀ p ∈ ([] : List (ℚ × String)), 0 ≤ p.1 := by
  intro p hp
  simp at hp

theorem allBatchPairs_fst_nonneg (s : Settings) (txs : List Transaction)
    (i : Nat) (t : Transaction) : ∀ p ∈ allBatchPairs s txs i t, 0 ≤ p.1 := by
  unfold allBatchPairs checkAmountPairs checkTimePairs checkVelocityPairs
    checkLocationPairs checkMerchantPairs
  refine fst_nonneg_append (fst_nonneg_append (fst_nonneg_append (fst_nonneg_append
    ?_ ?_) ?_) ?_) ?_ <;>
  first
    | exact flag_fst_nonneg (by norm_num)
    | exact flagEach_fst_nonneg (by norm_num)
    | refine fst_nonneg_append ?_ ?_ <;>
      first
        | exact flag_fst_nonneg (by norm_num)
        | exact flagEach_fst_nonneg (by norm_num)
        | refine fst_nonneg_append ?_ ?_ <;>
          first
            | exact flag_fst_nonneg (by norm_num)
            | exact flagEach_fst_nonneg (by norm_num)
            | exact fst_nonneg_append (flag_fst_nonneg (by norm_num))
                (flag_fst_nonneg (by norm_num))

theorem userPairs_fst_nonneg (t : Transaction) (hist : List Transaction) :
    ∀ p ∈ analyzeUserPairs t hist, 0 ≤ p.1 := by
  unfold analyzeUserPairs
  refine fst_nonneg_ite ?_ ?_
  · intro p hp
    simp only [List.mem_singleton] at hp
    subst hp; norm_num
  · exact fst_nonneg_append (fst_nonneg_append
      (flag2_fst_nonneg (by norm_num) (by norm_num))
      (flag_fst_nonneg (by norm_num))) (flag_fst_nonneg (by norm_num))

theorem allSinglePairs_fst_nonneg (t : Transaction) (hist : List Transaction) :
    ∀ p ∈ allSinglePairs t hist, 0 ≤ p.1 := by
  unfold allSinglePairs
  refine fst_nonneg_append (fst_nonneg_append (fst_nonneg_append (fst_nonneg_append
    (userPairs_fst_nonneg t hist) ?_) ?_) ?_) ?_
  · unfold analyzeAmountPairs
    exact fst_nonneg_append (fst_nonneg_append (fst_nonneg_append
      (flag2_fst_nonneg (by norm_num) (by norm_num))
      (flag_fst_nonneg (by norm_num)))
      (flag2_fst_nonneg (by norm_num) (by norm_num)))
      (flag_fst_nonneg (by norm_num))
  · unfold analyzeTemporalPairs
    exact fst_nonneg_append (fst_nonneg_append (fst_nonneg_append
      (flag_fst_nonneg (by norm_num)) (flag_fst_nonneg (by norm_num)))
      (flag_fst_nonneg (by norm_num))) (flag_fst_nonneg (by norm_num))
  · unfold analyzeLocationPairs
    exact fst_nonneg_append (fst_nonneg_append
      (fst_nonneg_ite (flag2_fst_nonneg (by norm_num) (by norm_num)) fst_nonneg_nil)
      (flag2_fst_nonneg (by norm_num) (by norm_num)))
      (flag_fst_nonneg (by norm_num))
  · unfold analyzeMerchantPairs
    exact fst_nonneg_append (fst_nonneg_append (fst_nonneg_append
      (fst_nonneg_ite (fst_nonneg_append (flag_fst_nonneg (by norm_num))
        (flag_fst_nonneg (by norm_num))) fst_nonneg_nil)
      (flag2_fst_nonneg (by norm_num) (by norm_num)))
      (flag_fst_nonneg (by norm_num))) (flag_fst_nonneg (by norm_num))

theorem pairs_score_nonneg {l : List (ℚ × String)} (h : ∀ p ∈ l, 0 ≤ p.1) :
    0 ≤ (l.map Prod.fst).sum := by
  apply List.sum_nonneg
  intro x hx
  rcases List.mem_map.1 hx with ⟨p, hp, rfl⟩
  exact h p hp

theorem sum_const_list {l : List ℚ} {c : ℚ} (h : ∀ a ∈ l, a = c) :
    l.sum = (l.length : ℚ) * c := by
  induction l with
  | nil => simp
  | cons a rest ih =>
    have ha := h a (List.mem_cons_self a rest)
    have hr := ih (fun x hx => h x (List.mem_cons_of_mem a hx))
    simp only [List.sum_cons, ha, hr, List.length_cons]
    push_cast
    ring

theorem meanQ_const {l : List ℚ} {c : ℚ} (hne : l ≠ []) (h : ∀ a ∈ l, a = c) :
    meanQ l = c := by
  have hlen : (l.length : ℚ) ≠ 0 := by
    have : l.length ≠ 0 := fun h0 => hne (List.eq_nil_of_length_eq_zero h0)
    exact_mod_cast this
  unfold meanQ
  rw [sum_const_list h, mul_comm, mul_div_assoc, div_self hlen, mul_one]

theorem sampleVarQ_const {l : List ℚ} {c : ℚ} (h : ∀ a ∈ l, a = c) :
    sampleVarQ l = 0 := by
  rcases List.eq_nil_or_concat l with hl | -
  · subst hl; simp [sampleVarQ]
  · unfold sampleVarQ
    rcases List.eq_nil_or_concat l with hl | -
    · subst hl; simp
    · have hnum : (l.map (fun a => (a - meanQ l) ^ 2)).sum = 0 := by
        apply List.sum_eq_zero
        intro x hx
        rcases List.mem_map.1 hx with ⟨a, ha, rfl⟩
        by_cases hne : l = []
        · subst hne; simp at ha
        · rw [h a ha, meanQ_const hne h, sub_self]
          ring
      rw [hnum, zero_div]

theorem zGtB_of_const_false {l : List ℚ} {c a k : ℚ} (h : ∀ x ∈ l, x = c) :
    zGtB l a k = false := by
  unfold zGtB stdPosB
  rw [sampleVarQ_const h]
  simp

theorem containsStr_empty (s : String) : containsStr s "" = true := by
  unfold containsStr
  have : ("" : String).toList = [] := rfl
  rw [this]
  cases s.toList with
  | nil => rfl
  | cons c rest => simp [isInfixB, isPrefixB]

theorem snd_mem_flag {lab : String} {c : Bool} {w : ℚ} {l : String} :
    lab ∈ (flag c w l).map Prod.snd ↔ c = true ∧ lab = l := by
  unfold flag; split <;> simp_all

theorem snd_mem_flag2 {lab : String} {c1 c2 : Bool} {w1 w2 : ℚ} {l1 l2 : String} :
    lab ∈ (flag2 c1 w1 l1 c2 w2 l2).map Prod.snd ↔
      (c1 = true ∧ lab = l1) ∨ (c1 = false ∧ c2 = true ∧ lab = l2) := by
  unfold flag2; rcases c1 <;> rcases c2 <;> simp

theorem snd_mem_flagEach {lab : String} {ks : List String} {c : String → Bool}
    {w : ℚ} {f : String → String} :
    lab ∈ (flagEach ks c w f).map Prod.snd ↔
      ∃ k, (k ∈ ks ∧ c k = true) ∧ lab = f k := by
  constructor
  · intro h
    rcases List.mem_map.1 h with ⟨p, hp, rfl⟩
    rcases mem_flagEach.1 hp with ⟨k, hk, rfl⟩
    exact ⟨k, hk, rfl⟩
  · rintro ⟨k, hk, rfl⟩
    exact List.mem_map.2 ⟨(w, f k), mem_flagEach.2 ⟨k, hk, rfl⟩, rfl⟩

theorem rapid_label_mem (s : Settings) (txs : List Transaction) (i : Nat)
    (t : Transaction) :
    "Rapid consecutive transactions" ∈ (allBatchPairs s txs i t).map Prod.snd ↔
      rapidB txs i t = true := by
  simp only [allBatchPairs, checkAmountPairs, checkTimePairs, checkVelocityPairs,
    checkLocationPairs, checkMerchantPairs, List.map_append, List.mem_append,
    snd_mem_flag, snd_mem_flagEach]
  simp

theorem extreme_label_mem (s : Settings) (txs : List Transaction) (i : Nat)
    (t : Transaction) :
    "Extreme amount" ∈ (allBatchPairs s txs i t).map Prod.snd ↔
      zGtB (txs.map Transaction.amount) t.amount 3 = true := by
  simp only [allBatchPairs, checkAmountPairs, checkTimePairs, checkVelocityPairs,
    checkLocationPairs, checkMerchantPairs, List.map_append, List.mem_append,
    snd_mem_flag, snd_mem_flagEach]
  simp

/-! ## Claim theorems -/

/-- C1: every batch-scored transaction and every single-transaction analysis
has `0 ≤ risk_score ≤ 1`: contributions are summed and clipped at 1.0, and no
combination of rule firings drives the score below 0 or above 1. -/
theorem risk_score_in_unit_interval :
    (∀ (s : Settings) (txs : List Transaction), ∀ r ∈ detect_fraud s txs,
      0 ≤ r.risk_score ∧ r.risk_score ≤ 1) ∧
    (∀ (t : Transaction) (hist : List Transaction),
      0 ≤ (analyze_single_transaction t hist).risk_score ∧
      (analyze_single_transaction t hist).risk_score ≤ 1) := by
  constructor
  · intro s txs r hr
    rcases List.mem_map.1 hr with ⟨p, hp, rfl⟩
    exact ⟨le_min (pairs_score_nonneg (allBatchPairs_fst_nonneg s txs p.1 p.2))
      zero_le_one, min_le_right _ _⟩
  · intro t hist
    exact ⟨le_min (pairs_score_nonneg (allSinglePairs_fst_nonneg t hist))
      zero_le_one, min_le_right _ _⟩

/-- Witness for C1 at a concrete batch and a concrete single analysis. -/
theorem risk_score_in_unit_interval_witness :
    (0 ≤ (scoreAt defaultSettings [scA0] 0 scA0).risk_score ∧
      (scoreAt defaultSettings [scA0] 0 scA0).risk_score ≤ 1) ∧
    (0 ≤ (analyze_single_transaction tSingle []).risk_score ∧
      (analyze_single_transaction tSingle []).risk_score ≤ 1) :=
  ⟨risk_score_in_unit_interval.1 defaultSettings [scA0] _
      (List.mem_singleton.mpr rfl),
   risk_score_in_unit_interval.2 tSingle []⟩

/-- C2: in batch mode, `is_fraud` holds exactly when the clipped risk score
reaches `high_risk_threshold` of the Settings used for the pass. -/
theorem is_fraud_iff_threshold :
    ∀ (s : Settings) (txs : List Transaction), ∀ r ∈ detect_fraud s txs,
      r.is_fraud = true ↔ s.high_risk_threshold ≤ r.risk_score := by
  intro s txs r hr
  rcases List.mem_map.1 hr with ⟨p, hp, rfl⟩
  simp [scoreAt]

/-- Witness for C2 at a concrete batch row. -/
theorem is_fraud_iff_threshold_witness :
    (scoreAt defaultSettings [scA0] 0 scA0).is_fraud = true ↔
      defaultSettings.high_risk_threshold ≤
        (scoreAt defaultSettings [scA0] 0 scA0).risk_score :=
  is_fraud_iff_threshold defaultSettings [scA0] _ (List.mem_singleton.mpr rfl)

/-- C8: batch scoring is deterministic — the same transaction collection with
the same Settings always yields the same per-transaction risk scores,
`is_fraud` flags and fraud-reason lists. -/
theorem detect_fraud_deterministic :
    ∀ (s1 s2 : Settings) (t1 t2 : List Transaction), s1 = s2 → t1 = t2 →
      (detect_fraud s1 t1).map ScoredTx.risk_score =
        (detect_fraud s2 t2).map ScoredTx.risk_score ∧
      (detect_fraud s1 t1).map ScoredTx.is_fraud =
        (detect_fraud s2 t2).map ScoredTx.is_fraud ∧
      (detect_fraud s1 t1).map ScoredTx.fraud_reasons =
        (detect_fraud s2 t2).map ScoredTx.fraud_reasons := by
  intro s1 s2 t1 t2 hs ht
  subst hs; subst ht
  exact ⟨rfl, rfl, rfl⟩

/-- Witness for C8 at a concrete batch. -/
theorem detect_fraud_deterministic_witness :
    (detect_fraud defaultSettings [scA0, scA1]).map ScoredTx.risk_score =
      (detect_fraud defaultSettings [scA0, scA1]).map ScoredTx.risk_score ∧
    (detect_fraud defaultSettings [scA0, scA1]).map ScoredTx.is_fraud =
      (detect_fraud defaultSettings [scA0, scA1]).map ScoredTx.is_fraud ∧
    (detect_fraud defaultSettings [scA0, scA1]).map ScoredTx.fraud_reasons =
      (detect_fraud defaultSettings [scA0, scA1]).map ScoredTx.fraud_reasons :=
  detect_fraud_deterministic defaultSettings defaultSettings [scA0, scA1]
    [scA0, scA1] rfl rfl

/-- C5: the batch off-hours rule is wrap-aware — the code's test agrees with
the window `[start,24) ∪ [0,end]` when `start > end`, and `[start,end]`
otherwise; with the default 22..6 window the batch pipeline flags hours 23
and 2 with "Off-hours transaction" but not hour 12. -/
theorem off_hours_wrap_aware :
    (∀ (s : Settings) (h : Nat), h < 24 →
      (offHoursB s (h : Int) = true ↔
        specOffWindow s.off_hours_start s.off_hours_end h)) ∧
    ("Off-hours transaction" ∈
      (((detect_fraud defaultSettings [tHour23, tHour2, tHour12]).map
        ScoredTx.fraud_reasons).getD 0 []) ∧
     "Off-hours transaction" ∈
      (((detect_fraud defaultSettings [tHour23, tHour2, tHour12]).map
        ScoredTx.fraud_reasons).getD 1 []) ∧
     "Off-hours transaction" ∉
      (((detect_fraud defaultSettings [tHour23, tHour2, tHour12]).map
        ScoredTx.fraud_reasons).getD 2 [])) := by
  constructor
  · intro s h hh
    unfold offHoursB specOffWindow
    by_cases hc : s.off_hours_end < s.off_hours_start
    · simp only [if_pos hc]
      simp only [Bool.or_eq_true, decide_eq_true_iff]
      constructor
      · rintro (h1 | h1)
        · exact Or.inl ⟨by exact_mod_cast h1, hh⟩
        · exact Or.inr (by exact_mod_cast h1)
      · rintro (⟨h1, -⟩ | h1)
        · exact Or.inl (by exact_mod_cast h1)
        · exact Or.inr (by exact_mod_cast h1)
    · simp only [if_neg hc]
      simp only [Bool.and_eq_true, decide_eq_true_iff]
      constructor
      · rintro ⟨h1, h2⟩
        exact ⟨by exact_mod_cast h1, by exact_mod_cast h2⟩
      · rintro ⟨h1, h2⟩
        exact ⟨by exact_mod_cast h1, by exact_mod_cast h2⟩
  · with_unfolding_all decide

/-- Witness for C5's wrap-equivalence at concrete hours 23, 2 and 12 under
the default 22..6 window. -/
theorem off_hours_wrap_aware_witness :
    (offHoursB defaultSettings (23 : Nat) = true ∧
     offHoursB defaultSettings (2 : Nat) = true) ∧
    ¬ specOffWindow defaultSettings.off_hours_start
        defaultSettings.off_hours_end 12 := by
  refine ⟨⟨?_, ?_⟩, ?_⟩
  · exact (off_hours_wrap_aware.1 defaultSettings 23 (by norm_num)).2
      (by unfold specOffWindow defaultSettings; norm_num)
  · exact (off_hours_wrap_aware.1 defaultSettings 2 (by norm_num)).2
      (by unfold specOffWindow defaultSettings; norm_num)
  · intro hw
    have := (off_hours_wrap_aware.1 defaultSettings 12 (by norm_num)).2 hw
    rw [show offHoursB defaultSettings (12 : Nat) = false from by
      unfold offHoursB defaultSettings; norm_num] at this
    exact Bool.false_ne_true this

/-- C9: the location keyword lists contain the empty string, which is a
substring of every location text, so in batch mode every scored transaction
carries at least one "High-risk location" reason (one 0.10 contribution per
matching keyword) and in single mode every analysis carries the 0.25
"Suspicious location name" factor. -/
theorem empty_keyword_always_fires :
    (∀ (s : Settings) (txs : List Transaction), ∀ r ∈ detect_fraud s txs,
      "High-risk location" ∈ r.fraud_reasons) ∧
    (∀ (t : Transaction) (hist : List Transaction),
      "Suspicious location name" ∈
        (analyze_single_transaction t hist).risk_factors) := by
  constructor
  · intro s txs r hr
    rcases List.mem_map.1 hr with ⟨p, hp, rfl⟩
    show "High-risk location" ∈ (allBatchPairs s txs p.1 p.2).map Prod.snd
    simp only [allBatchPairs, List.map_append, List.mem_append]
    refine Or.inl (Or.inr ?_)
    simp only [checkLocationPairs, List.map_append, List.mem_append]
    refine Or.inr ?_
    exact snd_mem_flagEach.2 ⟨"", ⟨by simp, containsStr_empty _⟩, rfl⟩
  · intro t hist
    show "Suspicious location name" ∈ (allSinglePairs t hist).map Prod.snd
    simp only [allSinglePairs, List.map_append, List.mem_append]
    refine Or.inl (Or.inr ?_)
    simp only [analyzeLocationPairs, List.map_append, List.mem_append]
    refine Or.inr ?_
    refine snd_mem_flag.2 ⟨?_, rfl⟩
    refine List.any_eq_true.2 ⟨"", by simp, ?_⟩
    rw [show lowerStr "" = "" from rfl]
    exact containsStr_empty _

/-- Witness for C9 at a concrete batch row and a concrete single analysis. -/
theorem empty_keyword_always_fires_witness :
    "High-risk location" ∈ (scoreAt defaultSettings [scA0] 0 scA0).fraud_reasons ∧
    "Suspicious location name" ∈
      (analyze_single_transaction tSingle []).risk_factors :=
  ⟨empty_keyword_always_fires.1 defaultSettings [scA0] _
    (List.mem_singleton.mpr rfl),
   empty_keyword_always_fires.2 tSingle []⟩

/-- C10: the single-mode "Very recent transaction from same user" check
compares against the maximum historical timestamp of the user, so whenever
the analyzed transaction is older than the user's latest historical
transaction the 0.20 factor fires regardless of the gap to the nearest
prior transaction. -/
theorem recent_check_uses_max_timestamp :
    ∀ (t : Transaction) (hist : List Transaction),
      userTxs hist t.user_id ≠ [] →
      t.timestamp < maxTsI ((userTxs hist t.user_id).map Transaction.timestamp) →
      "Very recent transaction from same user" ∈
        (analyze_single_transaction t hist).risk_factors := by
  intro t hist hne hlt
  show "Very recent transaction from same user" ∈ (allSinglePairs t hist).map Prod.snd
  simp only [allSinglePairs, List.map_append, List.mem_append]
  refine Or.inl (Or.inl (Or.inl (Or.inl ?_)))
  unfold analyzeUserPairs
  rw [if_neg (by simp [List.isEmpty_iff, hne])]
  simp only [List.map_append, List.mem_append]
  refine Or.inl (Or.inr ?_)
  refine snd_mem_flag.2 ⟨?_, rfl⟩
  exact decide_eq_true_iff.2 (by omega)

/-- Witness for C10: the analyzed transaction is 1 000 000 s old while the
user's latest history entry is at 2 000 000 s, yet the "very recent" factor
fires. -/
theorem recent_check_uses_max_timestamp_witness :
    "Very recent transaction from same user" ∈
      (analyze_single_transaction tSingle [tHistLate]).risk_factors :=
  recent_check_uses_max_timestamp tSingle [tHistLate]
    (by with_unfolding_all decide) (by with_unfolding_all decide)

/-- C4: when every amount in the batch is identical (zero variance) the
extreme-amount z-score rule is skipped — no "Extreme amount" reason appears,
and every row's reasons and clipped score are exactly those of the remaining
rules (which still evaluate). -/
theorem zero_variance_skips_z_rule :
    ∀ (s : Settings) (txs : List Transaction),
      (∀ t1 ∈ txs, ∀ t2 ∈ txs, t1.amount = t2.amount) →
      detect_fraud s txs = txs.enum.map (fun p => scoreAt s txs p.1 p.2) ∧
      ∀ p ∈ txs.enum,
        "Extreme amount" ∉ (scoreAt s txs p.1 p.2).fraud_reasons ∧
        (scoreAt s txs p.1 p.2).fraud_reasons =
          (batchPairsSansZ s txs p.1 p.2).map Prod.snd ∧
        (scoreAt s txs p.1 p.2).risk_score =
          min ((batchPairsSansZ s txs p.1 p.2).map Prod.fst).sum 1 := by
  intro s txs hEq
  have hz : ∀ a : ℚ, zGtB (txs.map Transaction.amount) a 3 = false := by
    intro a
    rcases txs with - | ⟨t0, rest⟩
    · exact zGtB_of_const_false (c := 0) (by intro x hx; simp at hx)
    · refine zGtB_of_const_false (c := t0.amount) ?_
      intro x hx
      rcases List.mem_map.1 hx with ⟨u, hu, rfl⟩
      exact hEq u hu t0 (List.mem_cons_self _ _)
  have hpairs : ∀ (i : Nat) (t : Transaction),
      allBatchPairs s txs i t = batchPairsSansZ s txs i t := by
    intro i t
    unfold allBatchPairs checkAmountPairs batchPairsSansZ
    rw [hz t.amount]
    rfl
  refine ⟨rfl, ?_⟩
  intro p hp
  refine ⟨?_, ?_, ?_⟩
  · intro hmem
    have hm : "Extreme amount" ∈ (allBatchPairs s txs p.1 p.2).map Prod.snd := hmem
    have := (extreme_label_mem s txs p.1 p.2).1 hm
    rw [hz p.2.amount] at this
    exact Bool.false_ne_true this
  · show (allBatchPairs s txs p.1 p.2).map Prod.snd = _
    rw [hpairs]
  · show min ((allBatchPairs s txs p.1 p.2).map Prod.fst).sum 1 = _
    rw [hpairs]

/-- Witness for C4 at a concrete two-row batch of identical amounts. -/
theorem zero_variance_skips_z_rule_witness :
    "Extreme amount" ∉ (scoreAt defaultSettings [scA0, scA1] 0 scA0).fraud_reasons :=
  ((zero_variance_skips_z_rule defaultSettings [scA0, scA1]
      (by with_unfolding_all decide)).2 (0, scA0)
    (List.mem_cons_self _ _)).1

/-- Counterexample to C3 as stated: in the Scenario A batch (two "U1"
transactions, equal amounts, 30 s apart) the earlier transaction does NOT
receive the "Rapid consecutive transactions" reason — only the later one
does, because `diff()` leaves the first row's gap undefined. -/
theorem rapid_pair_counterexample :
    "Rapid consecutive transactions" ∉
      (((detect_fraud defaultSettings [scA0, scA1]).map
        ScoredTx.fraud_reasons).getD 0 []) ∧
    "Rapid consecutive transactions" ∈
      (((detect_fraud defaultSettings [scA0, scA1]).map
        ScoredTx.fraud_reasons).getD 1 []) := by
  with_unfolding_all decide

/-- C3 amended: for a batch of exactly two same-user transactions 30 s
apart, the 0.25 "Rapid consecutive transactions" contribution is applied to
the later transaction only; the earlier one never receives it. -/
theorem rapid_applies_to_later_only :
    ∀ (s : Settings) (t0 t1 : Transaction),
      t1.user_id = t0.user_id → t1.amount = t0.amount →
      t1.timestamp = t0.timestamp + 30 →
      "Rapid consecutive transactions" ∈ (scoreAt s [t0, t1] 1 t1).fraud_reasons ∧
      "Rapid consecutive transactions" ∉ (scoreAt s [t0, t1] 0 t0).fraud_reasons ∧
      detect_fraud s [t0, t1] = [scoreAt s [t0, t1] 0 t0, scoreAt s [t0, t1] 1 t1] := by
  intro s t0 t1 hu ha ht
  have huserTxs : userTxs [t0, t1] t0.user_id = [t0, t1] := by
    simp [userTxs, List.filter, hu]
  have hflt : (List.enum [t0, t1]).filter (fun p => p.2.user_id == t0.user_id) =
      [(0, t0), (1, t1)] := by
    simp [List.enum, List.enumFrom, List.filter, hu]
  have hsorted : userSorted [t0, t1] t0.user_id = [(0, t0), (1, t1)] := by
    unfold userSorted
    rw [hflt]
    simp only [sortTs, insertTs]
    rw [ht, if_pos (by omega : t0.timestamp ≤ t0.timestamp + 30)]
  have hIdx : rapidIdx [t0, t1] t0.user_id = [1] := by
    unfold rapidIdx
    rw [hsorted]
    simp only [List.tail_cons, List.zip_cons_cons, List.zip_nil_right,
      List.filterMap_cons, List.filterMap_nil]
    rw [ht]
    rw [if_pos (by omega : t0.timestamp + 30 - t0.timestamp < 60)]
  have h1 : rapidB [t0, t1] 1 t1 = true := by
    unfold rapidB
    rw [hu, huserTxs, hIdx]
    simp
  have h0 : rapidB [t0, t1] 0 t0 = false := by
    unfold rapidB
    rw [huserTxs, hIdx]
    simp
  refine ⟨?_, ?_, rfl⟩
  · exact (rapid_label_mem s [t0, t1] 1 t1).2 h1
  · intro hcon
    have hm : "Rapid consecutive transactions" ∈
        (allBatchPairs s [t0, t1] 0 t0).map Prod.snd := hcon
    have := (rapid_label_mem s [t0, t1] 0 t0).1 hm
    rw [h0] at this
    exact Bool.false_ne_true this

/-- Witness for the amended C3 at the concrete Scenario A transactions. -/
theorem rapid_applies_to_later_only_witness :
    "Rapid consecutive transactions" ∈
      (scoreAt defaultSettings [scA0, scA1] 1 scA1).fraud_reasons ∧
    "Rapid consecutive transactions" ∉
      (scoreAt defaultSettings [scA0, scA1] 0 scA0).fraud_reasons :=
  ⟨(rapid_applies_to_later_only defaultSettings scA0 scA1 rfl rfl rfl).1,
   (rapid_applies_to_later_only defaultSettings scA0 scA1 rfl rfl rfl).2.1⟩

theorem getRecommendation_ladder (sc : ℚ) (fs : List String) :
    (0.8 ≤ sc → (getRecommendation sc fs).action = "BLOCK" ∧
      (getRecommendation sc fs).confidence = "HIGH") ∧
    (sc < 0.8 → 0.6 ≤ sc → (getRecommendation sc fs).action = "REVIEW" ∧
      (getRecommendation sc fs).confidence = "MEDIUM") ∧
    (sc < 0.6 → 0.3 ≤ sc → (getRecommendation sc fs).action = "MONITOR" ∧
      (getRecommendation sc fs).confidence = "LOW") ∧
    (sc < 0.3 → (getRecommendation sc fs).action = "APPROVE" ∧
      (getRecommendation sc fs).confidence = "HIGH") ∧
    (0.7 ≤ sc → (getRecommendation sc fs).risk_level = "HIGH") ∧
    (sc < 0.7 → 0.4 ≤ sc → (getRecommendation sc fs).risk_level = "MEDIUM") ∧
    (sc < 0.4 → 0.2 ≤ sc → (getRecommendation sc fs).risk_level = "LOW") ∧
    (sc < 0.2 → (getRecommendation sc fs).risk_level = "VERY LOW") ∧
    (getRecommendation sc fs).primary_concerns = fs.take 3 := by
  unfold getRecommendation getRiskLevel
  refine ⟨?_, ?_, ?_, ?_, ?_, ?_, ?_, ?_, ?_⟩
  · intro h; rw [if_pos h]; exact ⟨rfl, rfl⟩
  · intro h h6; rw [if_neg (by linarith), if_pos h6]; exact ⟨rfl, rfl⟩
  · intro h h3
    rw [if_neg (by linarith), if_neg (by linarith), if_pos h3]
    exact ⟨rfl, rfl⟩
  · intro h
    rw [if_neg (by linarith), if_neg (by linarith), if_neg (by linarith)]
    exact ⟨rfl, rfl⟩
  · intro h; simp only; rw [if_pos h]
  · intro h h4; simp only; rw [if_neg (by linarith), if_pos h4]
  · intro h h2
    simp only
    rw [if_neg (by linarith), if_neg (by linarith), if_pos h2]
  · intro h
    simp only
    rw [if_neg (by linarith), if_neg (by linarith), if_neg (by linarith)]
  · simp only
    rcases fs with - | ⟨a, rest⟩ <;> simp

/-- C6: the single-mode recommendation follows the action/confidence ladder
(0.8/0.6/0.3) and the independent risk_level ladder (0.7/0.4/0.2) on the
final clipped score, and `primary_concerns` is exactly the first three fired
factors in the evaluation order user → amount → temporal → location →
merchant (empty when nothing fired). -/
theorem recommendation_ladders :
    ∀ (t : Transaction) (hist : List Transaction),
      (0.8 ≤ (analyze_single_transaction t hist).risk_score →
        (analyze_single_transaction t hist).recommendation.action = "BLOCK" ∧
        (analyze_single_transaction t hist).recommendation.confidence = "HIGH") ∧
      ((analyze_single_transaction t hist).risk_score < 0.8 →
        0.6 ≤ (analyze_single_transaction t hist).risk_score →
        (analyze_single_transaction t hist).recommendation.action = "REVIEW" ∧
        (analyze_single_transaction t hist).recommendation.confidence = "MEDIUM") ∧
      ((analyze_single_transaction t hist).risk_score < 0.6 →
        0.3 ≤ (analyze_single_transaction t hist).risk_score →
        (analyze_single_transaction t hist).recommendation.action = "MONITOR" ∧
        (analyze_single_transaction t hist).recommendation.confidence = "LOW") ∧
      ((analyze_single_transaction t hist).risk_score < 0.3 →
        (analyze_single_transaction t hist).recommendation.action = "APPROVE" ∧
        (analyze_single_transaction t hist).recommendation.confidence = "HIGH") ∧
      (0.7 ≤ (analyze_single_transaction t hist).risk_score →
        (analyze_single_transaction t hist).recommendation.risk_level = "HIGH") ∧
      ((analyze_single_transaction t hist).risk_score < 0.7 →
        0.4 ≤ (analyze_single_transaction t hist).risk_score →
        (analyze_single_transaction t hist).recommendation.risk_level = "MEDIUM") ∧
      ((analyze_single_transaction t hist).risk_score < 0.4 →
        0.2 ≤ (analyze_single_transaction t hist).risk_score →
        (analyze_single_transaction t hist).recommendation.risk_level = "LOW") ∧
      ((analyze_single_transaction t hist).risk_score < 0.2 →
        (analyze_single_transaction t hist).recommendation.risk_level = "VERY LOW") ∧
      (analyze_single_transaction t hist).recommendation.primary_concerns =
        ((analyzeUserPairs t hist ++ analyzeAmountPairs t hist ++
          analyzeTemporalPairs t hist ++ analyzeLocationPairs t hist ++
          analyzeMerchantPairs t hist).map Prod.snd).take 3 ∧
      ((analyze_single_transaction t hist).risk_factors = [] →
        (analyze_single_transaction t hist).recommendation.primary_concerns = []) := by
  intro t hist
  have hl := getRecommendation_ladder (analyze_single_transaction t hist).risk_score
    (analyze_single_transaction t hist).risk_factors
  have hrec : (analyze_single_transaction t hist).recommendation =
      getRecommendation (analyze_single_transaction t hist).risk_score
        (analyze_single_transaction t hist).risk_factors := rfl
  rw [hrec]
  refine ⟨hl.1, hl.2.1, hl.2.2.1, hl.2.2.2.1, hl.2.2.2.2.1, hl.2.2.2.2.2.1,
    hl.2.2.2.2.2.2.1, hl.2.2.2.2.2.2.2.1, ?_, ?_⟩
  · rw [hl.2.2.2.2.2.2.2.2]
    rfl
  · intro hnil
    rw [hl.2.2.2.2.2.2.2.2, hnil]
    rfl

/-- Witness for C6: a concrete analysis whose score 0.85 yields BLOCK/HIGH,
risk_level HIGH, and whose primary concerns are the first three fired
factors. -/
theorem recommendation_ladders_witness :
    ((analyze_single_transaction tSingle []).recommendation.action = "BLOCK" ∧
     (analyze_single_transaction tSingle []).recommendation.confidence = "HIGH") ∧
    (analyze_single_transaction tSingle []).recommendation.risk_level = "HIGH" :=
  ⟨(recommendation_ladders tSingle []).1 (by with_unfolding_all decide),
   (recommendation_ladders tSingle []).2.2.2.2.1 (by with_unfolding_all decide)⟩

/-- Counterexample to C7 as stated: the update `{high_risk_threshold: 1.5}`
is malformed (threshold outside [0,1]) yet `update_settings` applies it —
the current Settings change, so malformed updates are not rejected. -/
theorem malformed_update_not_rejected :
    validUpdateB badUpdate = false ∧
    update_settings defaultSettings badUpdate ≠ defaultSettings ∧
    (update_settings defaultSettings badUpdate).high_risk_threshold = 3 / 2 := by
  with_unfolding_all decide

/-- C7 amended: `update_settings` is an unconditional per-key merge — every
key present in the update (well-formed or not) overwrites that field, and
every absent key leaves its field unchanged; no validation or rejection
happens. -/
theorem update_settings_merges_unconditionally :
    ∀ (s : Settings) (u : SettingsUpdate),
      (u.high_risk_threshold = none →
        (update_settings s u).high_risk_threshold = s.high_risk_threshold) ∧
      (∀ x, u.high_risk_threshold = some x →
        (update_settings s u).high_risk_threshold = x) ∧
      (u.medium_risk_threshold = none →
        (update_settings s u).medium_risk_threshold = s.medium_risk_threshold) ∧
      (∀ x, u.medium_risk_threshold = some x →
        (update_settings s u).medium_risk_threshold = x) ∧
      (u.unusual_amount_threshold = none →
        (update_settings s u).unusual_amount_threshold = s.unusual_amount_threshold) ∧
      (∀ x, u.unusual_amount_threshold = some x →
        (update_settings s u).unusual_amount_threshold = x) ∧
      (u.micro_transaction_threshold = none →
        (update_settings s u).micro_transaction_threshold =
          s.micro_transaction_threshold) ∧
      (∀ x, u.micro_transaction_threshold = some x →
        (update_settings s u).micro_transaction_threshold = x) ∧
      (u.off_hours_start = none →
        (update_settings s u).off_hours_start = s.off_hours_start) ∧
      (∀ x, u.off_hours_start = some x → (update_settings s u).off_hours_start = x) ∧
      (u.off_hours_end = none →
        (update_settings s u).off_hours_end = s.off_hours_end) ∧
      (∀ x, u.off_hours_end = some x → (update_settings s u).off_hours_end = x) ∧
      (u.max_transactions_per_hour = none →
        (update_settings s u).max_transactions_per_hour =
          s.max_transactions_per_hour) ∧
      (∀ x, u.max_transactions_per_hour = some x →
        (update_settings s u).max_transactions_per_hour = x) ∧
      (u.max_amount_per_day = none →
        (update_settings s u).max_amount_per_day = s.max_amount_per_day) ∧
      (∀ x, u.max_amount_per_day = some x →
        (update_settings s u).max_amount_per_day = x) := by
  intro s u
  unfold update_settings
  refine ⟨?_, ?_, ?_, ?_, ?_, ?_, ?_, ?_, ?_, ?_, ?_, ?_, ?_, ?_, ?_, ?_⟩ <;>
    first
      | (intro h; rw [h]; rfl)
      | (intro x h; rw [h]; rfl)

/-- Witness for the amended C7: the partial update names only
`high_risk_threshold`, which is overwritten, while the unnamed
`medium_risk_threshold` stays at its current value. -/
theorem update_settings_merges_unconditionally_witness :
    (update_settings defaultSettings badUpdate).high_risk_threshold = 3 / 2 ∧
    (update_settings defaultSettings badUpdate).medium_risk_threshold =
      defaultSettings.medium_risk_threshold :=
  ⟨(update_settings_merges_unconditionally defaultSettings badUpdate).2.1
      (3 / 2) rfl,
   (update_settings_merges_unconditionally defaultSettings badUpdate).2.2.1 rfl⟩
